import Mathlib

/-!
Verification of the AQI conversion engine of `appcopy.py`.

The engine is modelled over exact rationals (`ℚ`): the Python source does the
arithmetic on floats, and every constant in the breakpoint / category tables is
a short decimal, so the rational model reproduces each formula exactly.
Python's `round` (round-half-to-even on the value) is modelled by `pyRound`,
and Python's `int(...)` truncation toward zero by `int_trunc`.
-/

/-- Python `round`: round to the nearest integer, ties to the even neighbor. -/
def pyRound (x : ℚ) : ℤ :=
  if x - ⌊x⌋ < 1/2 then ⌊x⌋
  else if 1/2 < x - ⌊x⌋ then ⌊x⌋ + 1
  else if 2 ∣ ⌊x⌋ then ⌊x⌋ else ⌊x⌋ + 1

/-- Python `int(...)` on a real value: truncation toward zero. -/
def int_trunc (x : ℚ) : ℤ :=
  if 0 ≤ x then ⌊x⌋ else ⌈x⌉

/-- One row `(bp_low, bp_hi, i_low, i_hi)` of a breakpoint table. -/
structure Breakpoint where
  bp_low : ℚ
  bp_hi : ℚ
  i_low : ℤ
  i_hi : ℤ
deriving DecidableEq

/-- Rows of `BREAKPOINTS['o3_ppm']`. -/
def o3Brackets : List Breakpoint :=
  [⟨0.000, 0.054, 0, 50⟩, ⟨0.055, 0.070, 51, 100⟩, ⟨0.071, 0.085, 101, 150⟩,
   ⟨0.086, 0.105, 151, 200⟩, ⟨0.106, 0.200, 201, 300⟩, ⟨0.201, 0.404, 301, 400⟩]

/-- Rows of `BREAKPOINTS['pm2_5']`. -/
def pm25Brackets : List Breakpoint :=
  [⟨0.0, 9.0, 0, 50⟩, ⟨9.1, 35.4, 51, 100⟩, ⟨35.5, 55.4, 101, 150⟩,
   ⟨55.5, 125.4, 151, 200⟩, ⟨125.5, 225.4, 201, 300⟩, ⟨225.5, 325.4, 301, 400⟩]

/-- Rows of `BREAKPOINTS['pm10']`. -/
def pm10Brackets : List Breakpoint :=
  [⟨0, 54, 0, 50⟩, ⟨55, 154, 51, 100⟩, ⟨155, 254, 101, 150⟩,
   ⟨255, 354, 151, 200⟩, ⟨355, 424, 201, 300⟩, ⟨425, 504, 301, 400⟩]

/-- Rows of `BREAKPOINTS['co_ppm']`. -/
def coBrackets : List Breakpoint :=
  [⟨0.0, 4.4, 0, 50⟩, ⟨4.5, 9.4, 51, 100⟩, ⟨9.5, 12.4, 101, 150⟩,
   ⟨12.5, 15.4, 151, 200⟩, ⟨15.5, 30.4, 201, 300⟩, ⟨30.5, 40.4, 301, 400⟩]

/-- Rows of `BREAKPOINTS['so2_ppb']`. -/
def so2Brackets : List Breakpoint :=
  [⟨0, 35, 0, 50⟩, ⟨36, 75, 51, 100⟩, ⟨76, 185, 101, 150⟩,
   ⟨186, 304, 151, 200⟩, ⟨305, 604, 201, 300⟩, ⟨605, 804, 301, 400⟩]

/-- Rows of `BREAKPOINTS['no2_ppb']`. -/
def no2Brackets : List Breakpoint :=
  [⟨0, 53, 0, 50⟩, ⟨54, 100, 51, 100⟩, ⟨101, 360, 101, 150⟩,
   ⟨361, 649, 151, 200⟩, ⟨650, 1249, 201, 300⟩, ⟨1250, 1649, 301, 400⟩]

/-- The `BREAKPOINTS` dictionary; `.get` on a missing key yields `none`. -/
def BREAKPOINTS (key : String) : Option (List Breakpoint) :=
  if key = "o3_ppm" then some o3Brackets
  else if key = "pm2_5" then some pm25Brackets
  else if key = "pm10" then some pm10Brackets
  else if key = "co_ppm" then some coBrackets
  else if key = "so2_ppb" then some so2Brackets
  else if key = "no2_ppb" then some no2Brackets
  else none

/-- The insertion order of the `BREAKPOINTS` / `aqi_v` dictionaries. -/
def POLLUTANT_KEYS : List String :=
  ["o3_ppm", "pm2_5", "pm10", "co_ppm", "so2_ppb", "no2_ppb"]

/-- The loop condition `bp_low <= concentration <= bp_hi`. -/
def inBracket (b : Breakpoint) (c : ℚ) : Prop :=
  b.bp_low ≤ c ∧ c ≤ b.bp_hi

instance (b : Breakpoint) (c : ℚ) : Decidable (inBracket b c) := by
  unfold inBracket; infer_instance

/-- The `for bp_low,bp_hi,i_low,i_hi in breakpoints:` loop: first row whose
inclusive range contains the concentration. -/
def scanBrackets (c : ℚ) : List Breakpoint → Option Breakpoint
  | [] => none
  | b :: rest =>
    if inBracket b c then some b else scanBrackets c rest

/-- The interpolation formula
`((i_hi - i_low) / (bp_hi - bp_low)) * (concentration - bp_low) + i_low`. -/
def affineB (b : Breakpoint) (c : ℚ) : ℚ :=
  ((b.i_hi : ℚ) - b.i_low) / (b.bp_hi - b.bp_low) * (c - b.bp_low) + b.i_low

/-- Body of `calculate_pollutant_aqi` after the table lookup: the negative
guard, the bracket scan, and the top-bracket extrapolation fallback. -/
def tableAqi (breakpoints : List Breakpoint) (concentration : ℚ) : ℤ :=
  if concentration < 0 then 0
  else if breakpoints = [] then 0
  else
    match scanBrackets concentration breakpoints with
    | some b =>
      if b.bp_hi - b.bp_low = 0 then b.i_low
      else pyRound (affineB b concentration)
    | none =>
      match breakpoints.getLast? with
      | none => 0
      | some b =>
        if b.bp_hi < concentration then
          if b.bp_hi - b.bp_low = 0 then b.i_hi
          else pyRound (affineB b concentration)
        else 0

/-- The source function `calculate_pollutant_aqi(pollutant_key, concentration)`. -/
def calculate_pollutant_aqi (pollutant_key : String) (concentration : ℚ) : ℤ :=
  tableAqi ((BREAKPOINTS pollutant_key).getD []) concentration


/-- Molar mass of O₃ (`MW_O3`). -/
def MW_O3 : ℚ := 48.0

/-- Molar mass of CO (`MW_CO`). -/
def MW_CO : ℚ := 28.01

/-- Molar mass of SO₂ (`MW_SO2`). -/
def MW_SO2 : ℚ := 64.07

/-- Molar mass of NO₂ (`MW_NO2`). -/
def MW_NO2 : ℚ := 46.01

/-- Molar volume constant, `MOLAR_VOLUME = 24.45`. -/
def MOLAR_VOLUME : ℚ := 24.45

/-- Conversion `o3_raw_ppm = (o3_v * MOLAR_VOLUME) / (MW_O3 * 1000)`. -/
def o3_raw_ppm (o3_v : ℚ) : ℚ := o3_v * MOLAR_VOLUME / (MW_O3 * 1000)

/-- Conversion `co_raw_ppm = (co_v * MOLAR_VOLUME) / (MW_CO * 1000)`. -/
def co_raw_ppm (co_v : ℚ) : ℚ := co_v * MOLAR_VOLUME / (MW_CO * 1000)

/-- Conversion `so2_raw_ppb = (so2_v * MOLAR_VOLUME) / MW_SO2`. -/
def so2_raw_ppb (so2_v : ℚ) : ℚ := so2_v * MOLAR_VOLUME / MW_SO2

/-- Conversion `no2_raw_ppb = (no2_v * MOLAR_VOLUME) / MW_NO2`. -/
def no2_raw_ppb (no2_v : ℚ) : ℚ := no2_v * MOLAR_VOLUME / MW_NO2

/-- Truncation `o3_c = int(o3_raw_ppm * 1000) / 1000.0`. -/
def o3_c (o3_v : ℚ) : ℚ := (int_trunc (o3_raw_ppm o3_v * 1000) : ℚ) / 1000

/-- Truncation `pm25_c = int(pm25_v * 10) / 10.0`. -/
def pm25_c (pm25_v : ℚ) : ℚ := (int_trunc (pm25_v * 10) : ℚ) / 10

/-- Truncation `pm10_c = int(pm10_v)`. -/
def pm10_c (pm10_v : ℚ) : ℚ := (int_trunc pm10_v : ℚ)

/-- Truncation `co_c = int(co_raw_ppm * 10) / 10.0`. -/
def co_c (co_v : ℚ) : ℚ := (int_trunc (co_raw_ppm co_v * 10) : ℚ) / 10

/-- Truncation `so2_c = int(so2_raw_ppb)`. -/
def so2_c (so2_v : ℚ) : ℚ := (int_trunc (so2_raw_ppb so2_v) : ℚ)

/-- Truncation `no2_c = int(no2_raw_ppb)`. -/
def no2_c (no2_v : ℚ) : ℚ := (int_trunc (no2_raw_ppb no2_v) : ℚ)

/-- One observation: the raw μg/m³ values read from
`air_data['list'][0]['components']` (`o3_v`, `pm25_v`, `pm10_v`, `co_v`,
`so2_v`, `no2_v`). -/
structure Components where
  o3 : ℚ
  pm2_5 : ℚ
  pm10 : ℚ
  co : ℚ
  so2 : ℚ
  no2 : ℚ

/-- The `aqi_v` dictionary shape: six sub-indices keyed in insertion order. -/
def aqi_dict (x1 x2 x3 x4 x5 x6 : ℤ) : List (String × ℤ) :=
  [("o3_ppm", x1), ("pm2_5", x2), ("pm10", x3), ("co_ppm", x4),
   ("so2_ppb", x5), ("no2_ppb", x6)]

/-- The `aqi_v` dictionary built for one observation. -/
def aqi_v (comp : Components) : List (String × ℤ) :=
  aqi_dict (calculate_pollutant_aqi "o3_ppm" (o3_c comp.o3))
    (calculate_pollutant_aqi "pm2_5" (pm25_c comp.pm2_5))
    (calculate_pollutant_aqi "pm10" (pm10_c comp.pm10))
    (calculate_pollutant_aqi "co_ppm" (co_c comp.co))
    (calculate_pollutant_aqi "so2_ppb" (so2_c comp.so2))
    (calculate_pollutant_aqi "no2_ppb" (no2_c comp.no2))

/-- Python `max` over a list of integers: undefined (`none`) on the empty
list, where the interpreter would raise `ValueError`. -/
def py_max : List ℤ → Option ℤ
  | [] => none
  | h :: t => some (t.foldl max h)

/-- The expression `max(aqi_v.values()) if aqi_v else 0`: the guard makes the aggregation
total, yielding `0` instead of an error on an empty dictionary. -/
def dict_max (l : List (String × ℤ)) : ℤ :=
  match py_max (l.map Prod.snd) with
  | some m => m
  | none => 0

/-- The source variable `overall_aqi` for one observation. -/
def overall_aqi (comp : Components) : ℤ := dict_max (aqi_v comp)

/-- Left-to-right scan of Python `max(..., key=...)`: the current best is
replaced only when a later element is strictly greater, so the first
maximal element wins. -/
def bestOf (p : String × ℤ) : List (String × ℤ) → String × ℤ
  | [] => p
  | q :: t => bestOf (if p.2 < q.2 then q else p) t

/-- The expression `max(aqi_v, key=aqi_v.get)`: first key achieving the maximal value;
`none` on an empty dictionary. -/
def dict_argmax (l : List (String × ℤ)) : Option String :=
  match l with
  | [] => none
  | h :: t => some (bestOf h t).1

/-- The source variable `dominant_pollutant_key` for one observation. -/
def dominant_pollutant_key (comp : Components) : String :=
  (dict_argmax (aqi_v comp)).getD ""

/-- One entry of `AIRNOW_AQI_GUIDE`. -/
structure Category where
  lo : ℤ
  hi : ℤ
  level : String
  color : String
  description : String
deriving DecidableEq

/-- Guide entry for AQI 0–50. -/
def catGood : Category :=
  ⟨0, 50, "Good", "#00e400",
    "Air quality is satisfactory, and air pollution poses little or no risk."⟩

/-- Guide entry for AQI 51–100. -/
def catModerate : Category :=
  ⟨51, 100, "Moderate", "#ffff00",
    "Air quality is acceptable. However, there may be a risk for some people, particularly those who are unusually sensitive to air pollution."⟩

/-- Guide entry for AQI 101–150. -/
def catUSG : Category :=
  ⟨101, 150, "Unhealthy for Sensitive Groups", "#ff7e00",
    "Members of sensitive groups may experience health effects. The general public is less likely to be affected."⟩

/-- Guide entry for AQI 151–200. -/
def catUnhealthy : Category :=
  ⟨151, 200, "Unhealthy", "#ff0000",
    "Some members of the general public may experience health effects; members of sensitive groups may experience more serious health effects."⟩

/-- Guide entry for AQI 201–300. -/
def catVeryUnhealthy : Category :=
  ⟨201, 300, "Very Unhealthy", "#8f3f97",
    "Health alert: The risk of health effects is increased for everyone."⟩

/-- Guide entry for AQI 301–10000. -/
def catHazardous : Category :=
  ⟨301, 10000, "Hazardous", "#7e0023",
    "Health warning of emergency conditions: everyone is more likely to be affected."⟩

/-- The `AIRNOW_AQI_GUIDE` table. -/
def AIRNOW_AQI_GUIDE : List Category :=
  [catGood, catModerate, catUSG, catUnhealthy, catVeryUnhealthy, catHazardous]

/-- Does a category's inclusive range contain the value? -/
def matchesCat (c : Category) (aqi_value : ℤ) : Prop :=
  c.lo ≤ aqi_value ∧ aqi_value ≤ c.hi

instance (c : Category) (v : ℤ) : Decidable (matchesCat c v) := by
  unfold matchesCat; infer_instance

/-- The source function `get_airnow_aqi_info`: first matching guide entry, else the last entry. -/
def get_airnow_aqi_info (aqi_value : ℤ) : Category :=
  match AIRNOW_AQI_GUIDE.find? (fun c => decide (matchesCat c aqi_value)) with
  | some c => c
  | none => AIRNOW_AQI_GUIDE.getLast (by simp [AIRNOW_AQI_GUIDE])

/-- Number of guide entries whose range contains the value. -/
def countMatches (aqi_value : ℤ) : ℕ :=
  (AIRNOW_AQI_GUIDE.filter (fun c => decide (matchesCat c aqi_value))).length

/-- Rows are well-formed: nonnegative bounds, a nondegenerate concentration
range, and a nondecreasing nonnegative index range. -/
def RowsOK (bps : List Breakpoint) : Prop :=
  ∀ b ∈ bps, 0 ≤ b.bp_low ∧ b.bp_low < b.bp_hi ∧ 0 ≤ b.i_low ∧ b.i_low ≤ b.i_hi

/-- Any two distinct rows are separated, in concentrations and indices. -/
def Disj (bps : List Breakpoint) : Prop :=
  ∀ b1 ∈ bps, ∀ b2 ∈ bps,
    b1 = b2 ∨ (b1.bp_hi < b2.bp_low ∧ b1.i_hi ≤ b2.i_low) ∨
      (b2.bp_hi < b1.bp_low ∧ b2.i_hi ≤ b1.i_low)

/-- Concentrations not lying in an inter-bracket gap: negative, inside some
bracket, or beyond the last bracket's upper bound. -/
def InDomain (bps : List Breakpoint) (c : ℚ) : Prop :=
  c < 0 ∨ (∃ b ∈ bps, inBracket b c) ∨
    (∃ t, bps.getLast? = some t ∧ t.bp_hi < c)

theorem BREAKPOINTS_o3 : BREAKPOINTS "o3_ppm" = some o3Brackets := rfl

theorem BREAKPOINTS_pm25 : BREAKPOINTS "pm2_5" = some pm25Brackets := rfl

theorem BREAKPOINTS_pm10 : BREAKPOINTS "pm10" = some pm10Brackets := rfl

theorem BREAKPOINTS_co : BREAKPOINTS "co_ppm" = some coBrackets := rfl

theorem BREAKPOINTS_so2 : BREAKPOINTS "so2_ppb" = some so2Brackets := rfl

theorem BREAKPOINTS_no2 : BREAKPOINTS "no2_ppb" = some no2Brackets := rfl

/-! ### Properties of `pyRound` -/

theorem floor_le_pyRound (x : ℚ) : ⌊x⌋ ≤ pyRound x := by
  unfold pyRound; split_ifs <;> omega

theorem pyRound_le_floor_add_one (x : ℚ) : pyRound x ≤ ⌊x⌋ + 1 := by
  unfold pyRound; split_ifs <;> omega

theorem pyRound_intCast (n : ℤ) : pyRound (n : ℚ) = n := by
  unfold pyRound
  rw [Int.floor_intCast]
  norm_num

theorem pyRound_mono {x y : ℚ} (h : x ≤ y) : pyRound x ≤ pyRound y := by
  rcases lt_or_eq_of_le (Int.floor_le_floor h) with hf | hf
  · have h1 := pyRound_le_floor_add_one x
    have h2 := floor_le_pyRound y
    omega
  · have hq : (⌊x⌋ : ℚ) = (⌊y⌋ : ℚ) := by exact_mod_cast hf
    unfold pyRound
    split_ifs <;> first | omega | linarith

theorem pyRound_near (x : ℚ) : |(pyRound x : ℚ) - x| ≤ 1/2 := by
  have h1 := Int.floor_le x
  have h2 := Int.lt_floor_add_one x
  unfold pyRound
  split_ifs <;> rw [abs_le] <;> constructor <;> push_cast <;> linarith

theorem intCast_le_pyRound {n : ℤ} {x : ℚ} (h : (n : ℚ) ≤ x) : n ≤ pyRound x := by
  have := pyRound_mono h
  rwa [pyRound_intCast] at this

theorem pyRound_le_intCast {n : ℤ} {x : ℚ} (h : x ≤ (n : ℚ)) : pyRound x ≤ n := by
  have := pyRound_mono h
  rwa [pyRound_intCast] at this

/-! ### Properties of the bracket scan -/

theorem scanBrackets_eq_some {bps : List Breakpoint} (hdisj : Disj bps)
    {b : Breakpoint} (hb : b ∈ bps) {c : ℚ} (hin : inBracket b c) :
    scanBrackets c bps = some b := by
  induction bps with
  | nil => cases hb
  | cons a t ih =>
    by_cases ha : inBracket a c
    · have hab : a = b := by
        rcases List.mem_cons.1 hb with h | hbt
        · exact h.symm
        · rcases hdisj a (List.mem_cons_self a t) b (List.mem_cons_of_mem a hbt)
            with h | ⟨h1, _⟩ | ⟨h1, _⟩
          · exact h
          · exfalso; have h2 := ha.2; have h3 := hin.1; linarith
          · exfalso; have h2 := ha.1; have h3 := hin.2; linarith
      rw [← hab]
      simp [scanBrackets, if_pos ha]
    · have hbt : b ∈ t := by
        rcases List.mem_cons.1 hb with h | hbt
        · exact absurd (h ▸ hin) ha
        · exact hbt
      have hstep : scanBrackets c (a :: t) = scanBrackets c t := by
        simp [scanBrackets, if_neg ha]
      rw [hstep]
      exact ih (fun b1 h1 b2 h2 =>
        hdisj b1 (List.mem_cons_of_mem a h1) b2 (List.mem_cons_of_mem a h2)) hbt

theorem scanBrackets_eq_none {bps : List Breakpoint} {c : ℚ}
    (h : ∀ b ∈ bps, ¬ inBracket b c) : scanBrackets c bps = none := by
  induction bps with
  | nil => rfl
  | cons a t ih =>
    simp only [scanBrackets]
    rw [if_neg (h a (List.mem_cons_self a t))]
    exact ih fun b hb => h b (List.mem_cons_of_mem a hb)

/-! ### Evaluation of `tableAqi` by region -/

theorem tableAqi_neg {bps : List Breakpoint} {c : ℚ} (hc : c < 0) :
    tableAqi bps c = 0 := by
  unfold tableAqi; rw [if_pos hc]

theorem tableAqi_scan_some {bps : List Breakpoint} {c : ℚ} (hne : bps ≠ [])
    (hc : ¬ c < 0) {b : Breakpoint} (hscan : scanBrackets c bps = some b) :
    tableAqi bps c =
      if b.bp_hi - b.bp_low = 0 then b.i_low else pyRound (affineB b c) := by
  unfold tableAqi
  rw [if_neg hc, if_neg hne, hscan]

theorem tableAqi_extrap_gt {bps : List Breakpoint} {c : ℚ} (hne : bps ≠ [])
    (hc : ¬ c < 0) (hscan : scanBrackets c bps = none)
    {t : Breakpoint} (hlast : bps.getLast? = some t) (hgt : t.bp_hi < c) :
    tableAqi bps c =
      if t.bp_hi - t.bp_low = 0 then t.i_hi else pyRound (affineB t c) := by
  unfold tableAqi
  rw [if_neg hc, if_neg hne, hscan, hlast]
  show (if t.bp_hi < c then
    if t.bp_hi - t.bp_low = 0 then t.i_hi else pyRound (affineB t c) else 0) = _
  rw [if_pos hgt]

theorem tableAqi_gap {bps : List Breakpoint} {c : ℚ} (hne : bps ≠ [])
    (hc : ¬ c < 0) (hscan : scanBrackets c bps = none)
    {t : Breakpoint} (hlast : bps.getLast? = some t) (hle : ¬ t.bp_hi < c) :
    tableAqi bps c = 0 := by
  unfold tableAqi
  rw [if_neg hc, if_neg hne, hscan, hlast]
  show (if t.bp_hi < c then
    if t.bp_hi - t.bp_low = 0 then t.i_hi else pyRound (affineB t c) else 0) = _
  rw [if_neg hle]

/-! ### Properties of the interpolation formula -/

theorem affineB_bp_low (b : Breakpoint) : affineB b b.bp_low = b.i_low := by
  simp [affineB]

theorem affineB_bp_hi {b : Breakpoint} (h : b.bp_low < b.bp_hi) :
    affineB b b.bp_hi = b.i_hi := by
  unfold affineB
  rw [div_mul_cancel₀ _ (sub_ne_zero.2 (ne_of_gt h))]
  ring

theorem affineB_mono {b : Breakpoint} (hlt : b.bp_low < b.bp_hi)
    (hi : b.i_low ≤ b.i_hi) {c1 c2 : ℚ} (h : c1 ≤ c2) :
    affineB b c1 ≤ affineB b c2 := by
  unfold affineB
  have hs : 0 ≤ ((b.i_hi : ℚ) - b.i_low) / (b.bp_hi - b.bp_low) :=
    div_nonneg (by exact_mod_cast sub_nonneg.2 hi) (le_of_lt (sub_pos.2 hlt))
  have := mul_le_mul_of_nonneg_left (sub_le_sub_right h b.bp_low) hs
  linarith

theorem affineB_lower {b : Breakpoint} (hlt : b.bp_low < b.bp_hi)
    (hi : b.i_low ≤ b.i_hi) {c : ℚ} (hc : b.bp_low ≤ c) :
    (b.i_low : ℚ) ≤ affineB b c := by
  have h := affineB_mono hlt hi hc
  rwa [affineB_bp_low] at h

theorem affineB_upper {b : Breakpoint} (hlt : b.bp_low < b.bp_hi)
    (hi : b.i_low ≤ b.i_hi) {c : ℚ} (hc : c ≤ b.bp_hi) :
    affineB b c ≤ (b.i_hi : ℚ) := by
  have h := affineB_mono hlt hi hc
  rwa [affineB_bp_hi hlt] at h

/-! ### Properties of the `max` aggregation -/

theorem foldl_max_mem (t : List ℤ) (h : ℤ) : t.foldl max h ∈ h :: t := by
  induction t generalizing h with
  | nil => simp
  | cons q t ih =>
    simp only [List.foldl_cons]
    rcases List.mem_cons.1 (ih (max h q)) with hm | hm
    · rw [hm]
      rcases max_choice h q with h1 | h1 <;> rw [h1] <;> simp
    · simp [hm]

theorem le_foldl_max (t : List ℤ) (h : ℤ) : ∀ v ∈ h :: t, v ≤ t.foldl max h := by
  induction t generalizing h with
  | nil => intro v hv; simp at hv; simp [hv]
  | cons q t ih =>
    intro v hv
    simp only [List.foldl_cons]
    rcases List.mem_cons.1 hv with rfl | hv'
    · exact le_trans (le_max_left v q) (ih (max v q) _ (List.mem_cons_self _ _))
    · rcases List.mem_cons.1 hv' with rfl | hv''
      · exact le_trans (le_max_right h v)
          (ih (max h v) (max h v) (List.mem_cons_self _ _))
      · exact ih (max h q) v (List.mem_cons_of_mem _ hv'')

theorem dict_max_cons (p : String × ℤ) (t : List (String × ℤ)) :
    dict_max (p :: t) = (t.map Prod.snd).foldl max p.2 := rfl

theorem dict_max_mem (p : String × ℤ) (t : List (String × ℤ)) :
    dict_max (p :: t) ∈ ((p :: t).map Prod.snd) := by
  rw [dict_max_cons]
  exact foldl_max_mem _ _

theorem le_dict_max (p : String × ℤ) (t : List (String × ℤ)) :
    ∀ v ∈ (p :: t).map Prod.snd, v ≤ dict_max (p :: t) := by
  rw [dict_max_cons, List.map_cons]
  exact le_foldl_max _ _

/-! ### Properties of the argmax scan -/

theorem bestOf_snd (t : List (String × ℤ)) (p : String × ℤ) :
    (bestOf p t).2 = (t.map Prod.snd).foldl max p.2 := by
  induction t generalizing p with
  | nil => rfl
  | cons q t ih =>
    simp only [bestOf, List.map_cons, List.foldl_cons]
    rcases lt_or_le p.2 q.2 with h | h
    · rw [if_pos h, ih, max_eq_right (le_of_lt h)]
    · rw [if_neg (not_lt.2 h), ih, max_eq_left h]

theorem snd_le_bestOf (t : List (String × ℤ)) (p : String × ℤ) :
    p.2 ≤ (bestOf p t).2 := by
  rw [bestOf_snd]
  exact le_foldl_max _ _ _ (List.mem_cons_self _ _)

theorem bestOf_snd_eq_dict_max (t : List (String × ℤ)) (p : String × ℤ) :
    (bestOf p t).2 = dict_max (p :: t) := by
  rw [bestOf_snd, dict_max_cons]

theorem find?_bestOf (t : List (String × ℤ)) (p : String × ℤ) :
    List.find? (fun q => q.2 == (bestOf p t).2) (p :: t) = some (bestOf p t) := by
  induction t generalizing p with
  | nil => simp [bestOf]
  | cons q t ih =>
    have hstep : bestOf p (q :: t) = bestOf (if p.2 < q.2 then q else p) t := rfl
    rcases lt_or_le p.2 q.2 with hpq | hpq
    · rw [hstep, if_pos hpq]
      have hql : q.2 ≤ (bestOf q t).2 := snd_le_bestOf t q
      have hpne : (p.2 == (bestOf q t).2) = false := by
        simp only [beq_eq_false_iff_ne, ne_eq]
        intro hcontra
        rw [hcontra] at hpq
        linarith
      rw [List.find?_cons_of_neg _ (by simp [hpne]), ih q]
    · rw [hstep, if_neg (not_lt.2 hpq)]
      by_cases hp : p.2 = (bestOf p t).2
      · have hfind := ih p
        rw [List.find?_cons_of_pos _ (by simp [hp])] at hfind
        rw [List.find?_cons_of_pos _ (by simp [hp])]
        exact hfind
      · have hple : p.2 ≤ (bestOf p t).2 := snd_le_bestOf t p
        have hplt : p.2 < (bestOf p t).2 := lt_of_le_of_ne hple hp
        have hfind := ih p
        rw [List.find?_cons_of_neg _ (by simp; omega)] at hfind
        rw [List.find?_cons_of_neg _ (by simp; omega),
          List.find?_cons_of_neg _ (by simp; omega)]
        exact hfind

/-! ### Generic facts about `tableAqi` on well-formed tables -/

theorem mem_of_getLast?_eq {l : List Breakpoint} {t : Breakpoint}
    (h : l.getLast? = some t) : t ∈ l := by
  induction l with
  | nil => simp [List.getLast?] at h
  | cons a l ih =>
    cases l with
    | nil =>
      simp [List.getLast?] at h
      simp [h]
    | cons b l' =>
      rw [List.getLast?_cons_cons] at h
      exact List.mem_cons_of_mem a (ih h)

theorem ne_nil_of_getLast?_eq {l : List Breakpoint} {t : Breakpoint}
    (h : l.getLast? = some t) : l ≠ [] := by
  intro hnil
  subst hnil
  simp [List.getLast?] at h

theorem tableAqi_in_bracket_if {bps : List Breakpoint} (hdisj : Disj bps)
    (h0lo : ∀ b ∈ bps, 0 ≤ b.bp_low) {b : Breakpoint} (hb : b ∈ bps) {c : ℚ}
    (hin : inBracket b c) :
    tableAqi bps c =
      if b.bp_hi = b.bp_low then b.i_low else pyRound (affineB b c) := by
  have hne : bps ≠ [] := by intro h; subst h; cases hb
  have h0 : (0:ℚ) ≤ c := le_trans (h0lo b hb) hin.1
  rw [tableAqi_scan_some hne (not_lt.2 h0) (scanBrackets_eq_some hdisj hb hin)]
  simp only [sub_eq_zero]

theorem tableAqi_in_bracket {bps : List Breakpoint} (hrows : RowsOK bps)
    (hdisj : Disj bps) {b : Breakpoint} (hb : b ∈ bps) {c : ℚ}
    (hin : inBracket b c) :
    tableAqi bps c = pyRound (affineB b c) := by
  rw [tableAqi_in_bracket_if hdisj (fun b hb => (hrows b hb).1) hb hin,
    if_neg (ne_of_gt (hrows b hb).2.1)]

theorem tableAqi_bracket_bounds {bps : List Breakpoint} (hrows : RowsOK bps)
    (hdisj : Disj bps) {b : Breakpoint} (hb : b ∈ bps) {c : ℚ}
    (hin : inBracket b c) :
    b.i_low ≤ tableAqi bps c ∧ tableAqi bps c ≤ b.i_hi := by
  rw [tableAqi_in_bracket hrows hdisj hb hin]
  obtain ⟨h0, hlt, hil0, hile⟩ := hrows b hb
  exact ⟨intCast_le_pyRound (affineB_lower hlt hile hin.1),
    pyRound_le_intCast (affineB_upper hlt hile hin.2)⟩

theorem tableAqi_extrap {bps : List Breakpoint} {t : Breakpoint}
    (hrows : RowsOK bps) (hlast : bps.getLast? = some t)
    (htop : ∀ b ∈ bps, b.bp_hi ≤ t.bp_hi) {c : ℚ} (hc : t.bp_hi < c) :
    tableAqi bps c = pyRound (affineB t c) := by
  have htmem := mem_of_getLast?_eq hlast
  have hne := ne_nil_of_getLast?_eq hlast
  obtain ⟨ht0, htlt, hti0, htile⟩ := hrows t htmem
  have h0 : (0:ℚ) ≤ c := by linarith
  have hscan : scanBrackets c bps = none := scanBrackets_eq_none fun b hb hin =>
    absurd hin.2 (not_le.2 (lt_of_le_of_lt (htop b hb) hc))
  rw [tableAqi_extrap_gt hne (not_lt.2 h0) hscan hlast hc,
    if_neg (sub_ne_zero.2 (ne_of_gt htlt))]

theorem extrap_lower {bps : List Breakpoint} {t : Breakpoint}
    (hrows : RowsOK bps) (hlast : bps.getLast? = some t)
    (htop : ∀ b ∈ bps, b.bp_hi ≤ t.bp_hi) {c : ℚ} (hc : t.bp_hi < c) :
    t.i_hi ≤ tableAqi bps c := by
  rw [tableAqi_extrap hrows hlast htop hc]
  obtain ⟨ht0, htlt, hti0, htile⟩ := hrows t (mem_of_getLast?_eq hlast)
  apply intCast_le_pyRound
  have h := affineB_mono htlt htile (le_of_lt hc)
  rwa [affineB_bp_hi htlt] at h

theorem tableAqi_mono {bps : List Breakpoint} {t : Breakpoint}
    (hrows : RowsOK bps) (hdisj : Disj bps)
    (hlast : bps.getLast? = some t) (htop : ∀ b ∈ bps, b.bp_hi ≤ t.bp_hi)
    {c1 c2 : ℚ} (h1 : InDomain bps c1) (h2 : InDomain bps c2) (h12 : c1 ≤ c2) :
    tableAqi bps c1 ≤ tableAqi bps c2 := by
  have htmem := mem_of_getLast?_eq hlast
  obtain ⟨ht0, htlt, hti0, htile⟩ := hrows t htmem
  rcases h1 with hneg1 | ⟨b1, hb1, hin1⟩ | ⟨t', hlast', hgt1⟩
  · rw [tableAqi_neg hneg1]
    rcases h2 with hneg2 | ⟨b2, hb2, hin2⟩ | ⟨t', hlast', hgt2⟩
    · rw [tableAqi_neg hneg2]
    · have hb := tableAqi_bracket_bounds hrows hdisj hb2 hin2
      have := (hrows b2 hb2).2.2.1
      omega
    · rw [hlast] at hlast'
      cases Option.some.inj hlast'
      have := extrap_lower hrows hlast htop hgt2
      omega
  · obtain ⟨hlo1, hltb1, hil1, hile1⟩ := hrows b1 hb1
    have hub1 := (tableAqi_bracket_bounds hrows hdisj hb1 hin1).2
    rcases h2 with hneg2 | ⟨b2, hb2, hin2⟩ | ⟨t', hlast', hgt2⟩
    · exfalso
      have := hin1.1
      linarith
    · rcases hdisj b1 hb1 b2 hb2 with heq | ⟨hsep, hidx⟩ | ⟨hsep, hidx⟩
      · subst heq
        rw [tableAqi_in_bracket hrows hdisj hb1 hin1,
          tableAqi_in_bracket hrows hdisj hb1 hin2]
        exact pyRound_mono (affineB_mono hltb1 hile1 h12)
      · have hlb2 := (tableAqi_bracket_bounds hrows hdisj hb2 hin2).1
        omega
      · exfalso
        have := hin1.1
        have := hin2.2
        linarith
    · rw [hlast] at hlast'
      cases Option.some.inj hlast'
      by_cases hb1t : b1 = t
      · subst hb1t
        rw [tableAqi_in_bracket hrows hdisj hb1 hin1,
          tableAqi_extrap hrows hlast htop hgt2]
        exact pyRound_mono (affineB_mono hltb1 hile1 h12)
      · rcases hdisj b1 hb1 t htmem with heq | ⟨hsep, hidx⟩ | ⟨hsep, hidx⟩
        · exact absurd heq hb1t
        · have := extrap_lower hrows hlast htop hgt2
          omega
        · exfalso
          have := htop b1 hb1
          linarith
  · rw [hlast] at hlast'
    cases Option.some.inj hlast'
    rcases h2 with hneg2 | ⟨b2, hb2, hin2⟩ | ⟨t', hlast', hgt2⟩
    · exfalso
      linarith
    · exfalso
      have := hin2.2
      have := htop b2 hb2
      linarith
    · rw [hlast] at hlast'
      cases Option.some.inj hlast'
      rw [tableAqi_extrap hrows hlast htop hgt1,
        tableAqi_extrap hrows hlast htop hgt2]
      exact pyRound_mono (affineB_mono htlt htile h12)

/-! ### The six concrete tables are well-formed -/

theorem rowsOK_o3 : RowsOK o3Brackets := by
  norm_num [RowsOK, o3Brackets]

theorem disj_o3 : Disj o3Brackets := by
  norm_num [Disj, o3Brackets, Breakpoint.mk.injEq]

theorem getLast_o3 : o3Brackets.getLast? = some ⟨0.201, 0.404, 301, 400⟩ := rfl

theorem top_o3 : ∀ b ∈ o3Brackets, b.bp_hi ≤ (Breakpoint.bp_hi ⟨0.201, 0.404, 301, 400⟩) := by
  norm_num [o3Brackets]

theorem rowsOK_pm25 : RowsOK pm25Brackets := by
  norm_num [RowsOK, pm25Brackets]

theorem disj_pm25 : Disj pm25Brackets := by
  norm_num [Disj, pm25Brackets, Breakpoint.mk.injEq]

theorem getLast_pm25 : pm25Brackets.getLast? = some ⟨225.5, 325.4, 301, 400⟩ := rfl

theorem top_pm25 : ∀ b ∈ pm25Brackets, b.bp_hi ≤ (Breakpoint.bp_hi ⟨225.5, 325.4, 301, 400⟩) := by
  norm_num [pm25Brackets]

theorem rowsOK_pm10 : RowsOK pm10Brackets := by
  norm_num [RowsOK, pm10Brackets]

theorem disj_pm10 : Disj pm10Brackets := by
  norm_num [Disj, pm10Brackets, Breakpoint.mk.injEq]

theorem getLast_pm10 : pm10Brackets.getLast? = some ⟨425, 504, 301, 400⟩ := rfl

theorem top_pm10 : ∀ b ∈ pm10Brackets, b.bp_hi ≤ (Breakpoint.bp_hi ⟨425, 504, 301, 400⟩) := by
  norm_num [pm10Brackets]

theorem rowsOK_co : RowsOK coBrackets := by
  norm_num [RowsOK, coBrackets]

theorem disj_co : Disj coBrackets := by
  norm_num [Disj, coBrackets, Breakpoint.mk.injEq]

theorem getLast_co : coBrackets.getLast? = some ⟨30.5, 40.4, 301, 400⟩ := rfl

theorem top_co : ∀ b ∈ coBrackets, b.bp_hi ≤ (Breakpoint.bp_hi ⟨30.5, 40.4, 301, 400⟩) := by
  norm_num [coBrackets]

theorem rowsOK_so2 : RowsOK so2Brackets := by
  norm_num [RowsOK, so2Brackets]

theorem disj_so2 : Disj so2Brackets := by
  norm_num [Disj, so2Brackets, Breakpoint.mk.injEq]

theorem getLast_so2 : so2Brackets.getLast? = some ⟨605, 804, 301, 400⟩ := rfl

theorem top_so2 : ∀ b ∈ so2Brackets, b.bp_hi ≤ (Breakpoint.bp_hi ⟨605, 804, 301, 400⟩) := by
  norm_num [so2Brackets]

theorem rowsOK_no2 : RowsOK no2Brackets := by
  norm_num [RowsOK, no2Brackets]

theorem disj_no2 : Disj no2Brackets := by
  norm_num [Disj, no2Brackets, Breakpoint.mk.injEq]

theorem getLast_no2 : no2Brackets.getLast? = some ⟨1250, 1649, 301, 400⟩ := rfl

theorem top_no2 : ∀ b ∈ no2Brackets, b.bp_hi ≤ (Breakpoint.bp_hi ⟨1250, 1649, 301, 400⟩) := by
  norm_num [no2Brackets]

theorem tableAqi_boundary {bps : List Breakpoint} (hrows : RowsOK bps)
    (hdisj : Disj bps) {b : Breakpoint} (hb : b ∈ bps) :
    tableAqi bps b.bp_low = b.i_low ∧ tableAqi bps b.bp_hi = b.i_hi := by
  obtain ⟨h0, hlt, hil0, hile⟩ := hrows b hb
  constructor
  · rw [tableAqi_in_bracket hrows hdisj hb ⟨le_refl _, le_of_lt hlt⟩,
      affineB_bp_low, pyRound_intCast]
  · rw [tableAqi_in_bracket hrows hdisj hb ⟨le_of_lt hlt, le_refl _⟩,
      affineB_bp_hi hlt, pyRound_intCast]

theorem calc_eq_tableAqi {k : String} {bps : List Breakpoint}
    (hbp : BREAKPOINTS k = some bps) (c : ℚ) :
    calculate_pollutant_aqi k c = tableAqi bps c := by
  unfold calculate_pollutant_aqi
  rw [hbp, Option.getD_some]

/-- Each of the six tables is well-formed: rows ordered and nonnegative,
pairwise separated with compatible index ranges, and the last row has the
greatest upper bound. -/
theorem BREAKPOINTS_wf (k : String) (hk : k ∈ POLLUTANT_KEYS)
    (bps : List Breakpoint) (hbp : BREAKPOINTS k = some bps) :
    RowsOK bps ∧ Disj bps ∧
      ∃ t, bps.getLast? = some t ∧ ∀ b ∈ bps, b.bp_hi ≤ t.bp_hi := by
  fin_cases hk
  · rw [BREAKPOINTS_o3] at hbp
    cases Option.some.inj hbp
    exact ⟨rowsOK_o3, disj_o3, _, getLast_o3, top_o3⟩
  · rw [BREAKPOINTS_pm25] at hbp
    cases Option.some.inj hbp
    exact ⟨rowsOK_pm25, disj_pm25, _, getLast_pm25, top_pm25⟩
  · rw [BREAKPOINTS_pm10] at hbp
    cases Option.some.inj hbp
    exact ⟨rowsOK_pm10, disj_pm10, _, getLast_pm10, top_pm10⟩
  · rw [BREAKPOINTS_co] at hbp
    cases Option.some.inj hbp
    exact ⟨rowsOK_co, disj_co, _, getLast_co, top_co⟩
  · rw [BREAKPOINTS_so2] at hbp
    cases Option.some.inj hbp
    exact ⟨rowsOK_so2, disj_so2, _, getLast_so2, top_so2⟩
  · rw [BREAKPOINTS_no2] at hbp
    cases Option.some.inj hbp
    exact ⟨rowsOK_no2, disj_no2, _, getLast_no2, top_no2⟩

/-! ### Claims -/

/-- C1: for every pollutant and concentration inside a breakpoint bracket,
`calculate_pollutant_aqi` returns `i_low` when the bracket is degenerate and
otherwise `round(((i_hi - i_low) / (bp_hi - bp_low)) * (c - bp_low) + i_low)`,
where the rounding is to the nearest integer (distance at most 1/2) under the
single consistent tie convention of Python's `round` (ties to even). -/
theorem C1_bracket_interpolation :
    (∀ k ∈ POLLUTANT_KEYS, ∀ bps, BREAKPOINTS k = some bps →
      ∀ b ∈ bps, ∀ c : ℚ, b.bp_low ≤ c → c ≤ b.bp_hi →
      calculate_pollutant_aqi k c =
        if b.bp_hi = b.bp_low then b.i_low else pyRound (affineB b c)) ∧
    (∀ x : ℚ, |(pyRound x : ℚ) - x| ≤ 1/2) := by
  constructor
  · intro k hk bps hbp b hb c hlo hhi
    obtain ⟨hrows, hdisj, t, hlast, htop⟩ := BREAKPOINTS_wf k hk bps hbp
    rw [calc_eq_tableAqi hbp]
    exact tableAqi_in_bracket_if hdisj (fun b hb => (hrows b hb).1) hb ⟨hlo, hhi⟩
  · exact pyRound_near

/-- Witness for C1 at O₃, bracket `(0.055, 0.070, 51, 100)`, `c = 0.06`. -/
theorem C1_bracket_interpolation_witness :
    calculate_pollutant_aqi "o3_ppm" 0.06 =
      if (0.070 : ℚ) = 0.055 then (51 : ℤ)
      else pyRound (((100 : ℚ) - 51) / (0.070 - 0.055) * (0.06 - 0.055) + 51) :=
  C1_bracket_interpolation.1 "o3_ppm" (by simp [POLLUTANT_KEYS])
    o3Brackets rfl ⟨0.055, 0.070, 51, 100⟩ (by simp [o3Brackets]) 0.06
    (by norm_num) (by norm_num)

/-- C3: at each bracket's exact `bp_low` the function returns exactly
`i_low`, and at `bp_hi` exactly `i_hi`, for all six pollutants. -/
theorem C3_boundary_exactness :
    ∀ k ∈ POLLUTANT_KEYS, ∀ bps, BREAKPOINTS k = some bps → ∀ b ∈ bps,
      calculate_pollutant_aqi k b.bp_low = b.i_low ∧
      calculate_pollutant_aqi k b.bp_hi = b.i_hi := by
  intro k hk bps hbp b hb
  obtain ⟨hrows, hdisj, t, hlast, htop⟩ := BREAKPOINTS_wf k hk bps hbp
  rw [calc_eq_tableAqi hbp, calc_eq_tableAqi hbp]
  exact tableAqi_boundary hrows hdisj hb

/-- Witness for C3 at PM2.5, bracket `(9.1, 35.4, 51, 100)`. -/
theorem C3_boundary_exactness_witness :
    calculate_pollutant_aqi "pm2_5" 9.1 = 51 ∧
    calculate_pollutant_aqi "pm2_5" 35.4 = 100 :=
  C3_boundary_exactness "pm2_5" (by simp [POLLUTANT_KEYS]) pm25Brackets rfl
    ⟨9.1, 35.4, 51, 100⟩ (by simp [pm25Brackets])

/-- C4 counterexample: the per-pollutant AQI function is NOT monotone over
all concentrations: for PM2.5, `9 ≤ 9.05` but the AQI drops from 50 to 0,
because 9.05 lies in the gap between the brackets `(0.0, 9.0)` and
`(9.1, 35.4)`. -/
theorem C4_counterexample :
    ¬ (∀ k ∈ POLLUTANT_KEYS, ∀ c1 c2 : ℚ, c1 ≤ c2 →
        calculate_pollutant_aqi k c1 ≤ calculate_pollutant_aqi k c2) := by
  intro h
  have h9 : calculate_pollutant_aqi "pm2_5" 9 = 50 := by
    norm_num [calculate_pollutant_aqi, tableAqi, BREAKPOINTS_pm25, pm25Brackets,
      scanBrackets, inBracket, affineB, pyRound] <;> simp
  have h905 : calculate_pollutant_aqi "pm2_5" (9.05 : ℚ) = 0 := by
    norm_num [calculate_pollutant_aqi, tableAqi, BREAKPOINTS_pm25, pm25Brackets,
      scanBrackets, inBracket, affineB, pyRound, List.getLast?] <;> simp
  have hmono := h "pm2_5" (by simp [POLLUTANT_KEYS]) 9 9.05 (by norm_num)
  omega

/-- C4 amended: the per-pollutant AQI function is monotonically
non-decreasing in the concentration for concentrations that do not fall in
an inter-bracket gap (negative, inside some bracket, or above the top
bracket's upper bound). -/
theorem C4_monotone_on_domain :
    ∀ k ∈ POLLUTANT_KEYS, ∀ bps, BREAKPOINTS k = some bps →
      ∀ c1 c2 : ℚ, InDomain bps c1 → InDomain bps c2 → c1 ≤ c2 →
      calculate_pollutant_aqi k c1 ≤ calculate_pollutant_aqi k c2 := by
  intro k hk bps hbp c1 c2 h1 h2 h12
  obtain ⟨hrows, hdisj, t, hlast, htop⟩ := BREAKPOINTS_wf k hk bps hbp
  rw [calc_eq_tableAqi hbp, calc_eq_tableAqi hbp]
  exact tableAqi_mono hrows hdisj hlast htop h1 h2 h12

/-- Witness for C4 amended: PM2.5 at 5 (inside a bracket) and 400 (beyond
the top bracket). -/
theorem C4_monotone_on_domain_witness :
    calculate_pollutant_aqi "pm2_5" 5 ≤ calculate_pollutant_aqi "pm2_5" 400 :=
  C4_monotone_on_domain "pm2_5" (by simp [POLLUTANT_KEYS]) pm25Brackets rfl 5 400
    (Or.inr (Or.inl ⟨⟨0.0, 9.0, 0, 50⟩, by simp [pm25Brackets],
      by constructor <;> norm_num⟩))
    (Or.inr (Or.inr ⟨⟨225.5, 325.4, 301, 400⟩, getLast_pm25, by norm_num⟩))
    (by norm_num)

/-- C10: a nonnegative concentration lying in none of the brackets and not
above the top bracket's upper bound (an inter-bracket gap) yields 0 — the
same sub-index as any negative (below-lowest-bracket) concentration. -/
theorem C10_gap_returns_zero :
    ∀ k ∈ POLLUTANT_KEYS, ∀ bps, BREAKPOINTS k = some bps →
      ∀ t, bps.getLast? = some t → ∀ c : ℚ, 0 ≤ c →
      (∀ b ∈ bps, ¬ inBracket b c) → c ≤ t.bp_hi →
      calculate_pollutant_aqi k c = 0 ∧
        ∀ c' : ℚ, c' < 0 → calculate_pollutant_aqi k c' = 0 := by
  intro k hk bps hbp t hlast c hc hgap hle
  constructor
  · rw [calc_eq_tableAqi hbp]
    exact tableAqi_gap (ne_nil_of_getLast?_eq hlast) (not_lt.2 hc)
      (scanBrackets_eq_none hgap) hlast (not_lt.2 hle)
  · intro c' hc'
    rw [calc_eq_tableAqi hbp]
    exact tableAqi_neg hc'

/-- Witness for C10: PM2.5 at 9.05, the gap between 9.0 and 9.1. -/
theorem C10_gap_returns_zero_witness :
    calculate_pollutant_aqi "pm2_5" (9.05 : ℚ) = 0 ∧
    calculate_pollutant_aqi "pm2_5" (-5 : ℚ) = 0 := by
  have h := C10_gap_returns_zero "pm2_5" (by simp [POLLUTANT_KEYS]) pm25Brackets
    rfl ⟨225.5, 325.4, 301, 400⟩ getLast_pm25 (9.05 : ℚ) (by norm_num)
    (by
      intro b hb
      simp only [pm25Brackets, List.mem_cons, List.not_mem_nil, or_false] at hb
      rcases hb with rfl | rfl | rfl | rfl | rfl | rfl <;>
        simp [inBracket] <;> norm_num)
    (by norm_num)
  exact ⟨h.1, h.2 (-5) (by norm_num)⟩

theorem find?_dict_max (p : String × ℤ) (t : List (String × ℤ)) :
    List.find? (fun q => q.2 == dict_max (p :: t)) (p :: t) =
      some ((dict_argmax (p :: t)).getD "", dict_max (p :: t)) := by
  have hsnd := bestOf_snd_eq_dict_max t p
  have hfind := find?_bestOf t p
  rw [hsnd] at hfind
  rw [hfind, ← hsnd]
  rfl

/-- C2: the overall AQI of an observation is exactly the maximum of the six
per-pollutant sub-indices: it occurs among them and no sub-index exceeds
it. -/
theorem C2_overall_is_max (comp : Components) :
    overall_aqi comp ∈ (aqi_v comp).map Prod.snd ∧
    ∀ v ∈ (aqi_v comp).map Prod.snd, v ≤ overall_aqi comp := by
  exact ⟨dict_max_mem _ _, le_dict_max _ _⟩

/-- Witness for C2: the O₃ sub-index never exceeds the overall AQI. -/
theorem C2_overall_is_max_witness :
    calculate_pollutant_aqi "o3_ppm" (o3_c 0) ≤ overall_aqi ⟨0, 0, 0, 0, 0, 0⟩ :=
  (C2_overall_is_max ⟨0, 0, 0, 0, 0, 0⟩).2 _ (by simp [aqi_v, aqi_dict])

/-- C7: for every assignment of sub-index values to the six pollutants (in
the fixed enumeration order), the dominant pollutant is the first key whose
sub-index equals the overall maximum. -/
theorem C7_dominant_pollutant (x1 x2 x3 x4 x5 x6 : ℤ) :
    (aqi_dict x1 x2 x3 x4 x5 x6).map Prod.fst = POLLUTANT_KEYS ∧
    List.find? (fun p => p.2 == dict_max (aqi_dict x1 x2 x3 x4 x5 x6))
        (aqi_dict x1 x2 x3 x4 x5 x6) =
      some ((dict_argmax (aqi_dict x1 x2 x3 x4 x5 x6)).getD "",
        dict_max (aqi_dict x1 x2 x3 x4 x5 x6)) :=
  ⟨rfl, find?_dict_max ("o3_ppm", x1)
    [("pm2_5", x2), ("pm10", x3), ("co_ppm", x4), ("so2_ppb", x5),
     ("no2_ppb", x6)]⟩

/-- C9 counterexample: on an empty input the aggregation does not fail — it
returns the plain value 0 (from the `if aqi_v else 0` guard). -/
theorem C9_counterexample : dict_max [] = 0 := rfl

/-- C9 amended: Python's `max` is undefined (`none`) on an empty list, but
the aggregation never consults it there: whenever the underlying maximum is
undefined the guard yields the overall AQI 0 instead of an error. -/
theorem C9_empty_returns_zero :
    py_max ([] : List ℤ) = none ∧
    ∀ l : List (String × ℤ), py_max (l.map Prod.snd) = none → dict_max l = 0 := by
  refine ⟨rfl, fun l h => ?_⟩
  unfold dict_max
  rw [h]

/-- Witness for C9 at the empty dictionary. -/
theorem C9_empty_returns_zero_witness :
    py_max (([] : List (String × ℤ)).map Prod.snd) = none ∧
    dict_max ([] : List (String × ℤ)) = 0 :=
  ⟨rfl, C9_empty_returns_zero.2 [] rfl⟩

theorem int_trunc_of_nonneg {x : ℚ} (h : 0 ≤ x) : int_trunc x = ⌊x⌋ := if_pos h

/-- C5: above the top bracket, the sub-index is extrapolated with the top
bracket's slope by the same formula with no clamping; concretely, readings
{O3: 0, PM2.5: 500, PM10: 0, CO: 0, SO2: 0, NO2: 0} give a PM2.5 sub-index
above 400, the overall AQI equals that extrapolated value, the dominant
pollutant is PM2.5, and the category is "Hazardous". -/
theorem C5_extrapolation_no_clamp :
    (∀ k ∈ POLLUTANT_KEYS, ∀ bps, BREAKPOINTS k = some bps →
      ∀ t, bps.getLast? = some t → ∀ c : ℚ, t.bp_hi < c →
      calculate_pollutant_aqi k c = pyRound (affineB t c)) ∧
    400 < calculate_pollutant_aqi "pm2_5" (pm25_c 500) ∧
    overall_aqi ⟨0, 500, 0, 0, 0, 0⟩ = calculate_pollutant_aqi "pm2_5" (pm25_c 500) ∧
    dominant_pollutant_key ⟨0, 500, 0, 0, 0, 0⟩ = "pm2_5" ∧
    (get_airnow_aqi_info (overall_aqi ⟨0, 500, 0, 0, 0, 0⟩)).level = "Hazardous" := by
  have ho3c : o3_c 0 = 0 := by
    norm_num [o3_c, o3_raw_ppm, MW_O3, MOLAR_VOLUME, int_trunc]
  have hpmc : pm25_c 500 = 500 := by norm_num [pm25_c, int_trunc]
  have hpm10c : pm10_c 0 = 0 := by norm_num [pm10_c, int_trunc]
  have hcoc : co_c 0 = 0 := by
    norm_num [co_c, co_raw_ppm, MW_CO, MOLAR_VOLUME, int_trunc]
  have hso2c : so2_c 0 = 0 := by
    norm_num [so2_c, so2_raw_ppb, MW_SO2, MOLAR_VOLUME, int_trunc]
  have hno2c : no2_c 0 = 0 := by
    norm_num [no2_c, no2_raw_ppb, MW_NO2, MOLAR_VOLUME, int_trunc]
  have ho3 : calculate_pollutant_aqi "o3_ppm" (0 : ℚ) = 0 := by
    norm_num [calculate_pollutant_aqi, tableAqi, BREAKPOINTS_o3, o3Brackets,
      scanBrackets, inBracket, affineB, pyRound] <;> simp
  have h573 : calculate_pollutant_aqi "pm2_5" (500 : ℚ) = 573 := by
    norm_num [calculate_pollutant_aqi, tableAqi, BREAKPOINTS_pm25, pm25Brackets,
      scanBrackets, inBracket, affineB, pyRound, List.getLast?] <;> simp
  have hpm10 : calculate_pollutant_aqi "pm10" (0 : ℚ) = 0 := by
    norm_num [calculate_pollutant_aqi, tableAqi, BREAKPOINTS_pm10, pm10Brackets,
      scanBrackets, inBracket, affineB, pyRound] <;> simp
  have hco : calculate_pollutant_aqi "co_ppm" (0 : ℚ) = 0 := by
    norm_num [calculate_pollutant_aqi, tableAqi, BREAKPOINTS_co, coBrackets,
      scanBrackets, inBracket, affineB, pyRound] <;> simp
  have hso2 : calculate_pollutant_aqi "so2_ppb" (0 : ℚ) = 0 := by
    norm_num [calculate_pollutant_aqi, tableAqi, BREAKPOINTS_so2, so2Brackets,
      scanBrackets, inBracket, affineB, pyRound] <;> simp
  have hno2 : calculate_pollutant_aqi "no2_ppb" (0 : ℚ) = 0 := by
    norm_num [calculate_pollutant_aqi, tableAqi, BREAKPOINTS_no2, no2Brackets,
      scanBrackets, inBracket, affineB, pyRound] <;> simp
  have haqi : aqi_v ⟨0, 500, 0, 0, 0, 0⟩ = aqi_dict 0 573 0 0 0 0 := by
    show aqi_dict (calculate_pollutant_aqi "o3_ppm" (o3_c 0))
      (calculate_pollutant_aqi "pm2_5" (pm25_c 500))
      (calculate_pollutant_aqi "pm10" (pm10_c 0))
      (calculate_pollutant_aqi "co_ppm" (co_c 0))
      (calculate_pollutant_aqi "so2_ppb" (so2_c 0))
      (calculate_pollutant_aqi "no2_ppb" (no2_c 0)) = _
    rw [ho3c, hpmc, hpm10c, hcoc, hso2c, hno2c, ho3, h573, hpm10, hco, hso2, hno2]
  have hover : overall_aqi ⟨0, 500, 0, 0, 0, 0⟩ = 573 := by
    unfold overall_aqi
    rw [haqi]
    rfl
  refine ⟨?_, ?_, ?_, ?_, ?_⟩
  · intro k hk bps hbp t hlast c hc
    obtain ⟨hrows, hdisj, t', hlast', htop⟩ := BREAKPOINTS_wf k hk bps hbp
    rw [hlast] at hlast'
    cases Option.some.inj hlast'
    rw [calc_eq_tableAqi hbp]
    exact tableAqi_extrap hrows hlast htop hc
  · rw [hpmc, h573]
    norm_num
  · rw [hover, hpmc, h573]
  · unfold dominant_pollutant_key
    rw [haqi]
    rfl
  · rw [hover]
    rfl

/-- Witness for C5 at PM2.5 with concentration 400, above the top bracket
bound 325.4. -/
theorem C5_extrapolation_no_clamp_witness :
    calculate_pollutant_aqi "pm2_5" 400 =
      pyRound (affineB ⟨225.5, 325.4, 301, 400⟩ 400) :=
  C5_extrapolation_no_clamp.1 "pm2_5" (by simp [POLLUTANT_KEYS]) pm25Brackets rfl
    ⟨225.5, 325.4, 301, 400⟩ getLast_pm25 400 (by norm_num)

/-- C6: the gaseous normalizations compute `(v * 24.45) / (MOLAR_MASS *
scale)` with the stated molar masses and scales and then truncate (floor,
never round) O₃ to 3 decimals, CO to 1 decimal, SO₂ and NO₂ to integers;
concretely O₃ raw 108 μg/m³ gives 0.055 ppm and sub-index 51. -/
theorem C6_gas_normalization :
    (∀ v : ℚ, 0 ≤ v →
      o3_c v = (⌊v * 24.45 / (48.0 * 1000) * 1000⌋ : ℚ) / 1000 ∧
      co_c v = (⌊v * 24.45 / (28.01 * 1000) * 10⌋ : ℚ) / 10 ∧
      so2_c v = (⌊v * 24.45 / 64.07⌋ : ℚ) ∧
      no2_c v = (⌊v * 24.45 / 46.01⌋ : ℚ)) ∧
    o3_c 108 = 0.055 ∧
    calculate_pollutant_aqi "o3_ppm" (o3_c 108) = 51 := by
  have hconst : ∀ v : ℚ, 0 ≤ v → ∀ d : ℚ, 0 < d → 0 ≤ v * MOLAR_VOLUME / d := by
    intro v hv d hd
    exact div_nonneg (mul_nonneg hv (by norm_num [MOLAR_VOLUME])) (le_of_lt hd)
  have h055 : o3_c 108 = 0.055 := by
    norm_num [o3_c, o3_raw_ppm, MW_O3, MOLAR_VOLUME, int_trunc]
  refine ⟨fun v hv => ⟨?_, ?_, ?_, ?_⟩, h055, ?_⟩
  · have h1 : (0:ℚ) ≤ o3_raw_ppm v * 1000 :=
      mul_nonneg (hconst v hv (MW_O3 * 1000) (by norm_num [MW_O3])) (by norm_num)
    rw [o3_c, int_trunc_of_nonneg h1]
    rfl
  · have h1 : (0:ℚ) ≤ co_raw_ppm v * 10 :=
      mul_nonneg (hconst v hv (MW_CO * 1000) (by norm_num [MW_CO])) (by norm_num)
    rw [co_c, int_trunc_of_nonneg h1]
    rfl
  · have h1 : (0:ℚ) ≤ so2_raw_ppb v :=
      hconst v hv MW_SO2 (by norm_num [MW_SO2])
    rw [so2_c, int_trunc_of_nonneg h1]
    rfl
  · have h1 : (0:ℚ) ≤ no2_raw_ppb v :=
      hconst v hv MW_NO2 (by norm_num [MW_NO2])
    rw [no2_c, int_trunc_of_nonneg h1]
    rfl
  · rw [h055]
    norm_num [calculate_pollutant_aqi, tableAqi, BREAKPOINTS_o3, o3Brackets,
      scanBrackets, inBracket, affineB, pyRound] <;> simp

/-- Witness for C6 at O₃ raw value 108 μg/m³. -/
theorem C6_gas_normalization_witness :
    o3_c 108 = (⌊(108 : ℚ) * 24.45 / (48.0 * 1000) * 1000⌋ : ℚ) / 1000 :=
  (C6_gas_normalization.1 108 (by norm_num)).1

/-- C8 counterexample: the six ranges do not cover every non-negative
integer: at 10001 no category matches (the lookup only reaches "Hazardous"
through the fallback). -/
theorem C8_counterexample : ¬ (∀ v : ℤ, 0 ≤ v → countMatches v = 1) := by
  intro h
  have h1 := h 10001 (by norm_num)
  have h2 : countMatches 10001 = 0 := rfl
  omega

/-- C8 amended: the six ranges form a total, non-overlapping partition of
the integers in [0, 10000]: exactly one category matches each such value and
the lookup returns it; for values above 10000 no range matches and the
lookup falls back to the last category, "Hazardous". -/
theorem C8_category_partition :
    (∀ v : ℤ, 0 ≤ v → v ≤ 10000 → countMatches v = 1 ∧
      matchesCat (get_airnow_aqi_info v) v) ∧
    (∀ v : ℤ, 10000 < v → countMatches v = 0 ∧
      AIRNOW_AQI_GUIDE.getLast? = some (get_airnow_aqi_info v) ∧
      (get_airnow_aqi_info v).level = "Hazardous") := by
  constructor
  · intro v h0 h1
    rcases le_or_lt v 50 with hv0 | hv0
    · have hfind : AIRNOW_AQI_GUIDE.find? (fun c => decide (matchesCat c v)) = some catGood := by
        rw [AIRNOW_AQI_GUIDE]
        rw [List.find?_cons_of_pos _ (by simp [matchesCat, catGood]; omega)]
      have hfilter : AIRNOW_AQI_GUIDE.filter (fun c => decide (matchesCat c v)) = [catGood] := by
        rw [AIRNOW_AQI_GUIDE]
        rw [List.filter_cons_of_pos (by simp [matchesCat, catGood]; omega)]
        rw [List.filter_cons_of_neg (by simp [matchesCat, catModerate]; omega)]
        rw [List.filter_cons_of_neg (by simp [matchesCat, catUSG]; omega)]
        rw [List.filter_cons_of_neg (by simp [matchesCat, catUnhealthy]; omega)]
        rw [List.filter_cons_of_neg (by simp [matchesCat, catVeryUnhealthy]; omega)]
        rw [List.filter_cons_of_neg (by simp [matchesCat, catHazardous]; omega)]
        rfl
      have hget : get_airnow_aqi_info v = catGood := by
        unfold get_airnow_aqi_info
        rw [hfind]
      refine ⟨?_, ?_⟩
      · unfold countMatches
        rw [hfilter]
        rfl
      · rw [hget]
        simp only [matchesCat, catGood]
        omega
    rcases le_or_lt v 100 with hv1 | hv1
    · have hfind : AIRNOW_AQI_GUIDE.find? (fun c => decide (matchesCat c v)) = some catModerate := by
        rw [AIRNOW_AQI_GUIDE]
        rw [List.find?_cons_of_neg _ (by simp [matchesCat, catGood]; omega)]
        rw [List.find?_cons_of_pos _ (by simp [matchesCat, catModerate]; omega)]
      have hfilter : AIRNOW_AQI_GUIDE.filter (fun c => decide (matchesCat c v)) = [catModerate] := by
        rw [AIRNOW_AQI_GUIDE]
        rw [List.filter_cons_of_neg (by simp [matchesCat, catGood]; omega)]
        rw [List.filter_cons_of_pos (by simp [matchesCat, catModerate]; omega)]
        rw [List.filter_cons_of_neg (by simp [matchesCat, catUSG]; omega)]
        rw [List.filter_cons_of_neg (by simp [matchesCat, catUnhealthy]; omega)]
        rw [List.filter_cons_of_neg (by simp [matchesCat, catVeryUnhealthy]; omega)]
        rw [List.filter_cons_of_neg (by simp [matchesCat, catHazardous]; omega)]
        rfl
      have hget : get_airnow_aqi_info v = catModerate := by
        unfold get_airnow_aqi_info
        rw [hfind]
      refine ⟨?_, ?_⟩
      · unfold countMatches
        rw [hfilter]
        rfl
      · rw [hget]
        simp only [matchesCat, catModerate]
        omega
    rcases le_or_lt v 150 with hv2 | hv2
    · have hfind : AIRNOW_AQI_GUIDE.find? (fun c => decide (matchesCat c v)) = some catUSG := by
        rw [AIRNOW_AQI_GUIDE]
        rw [List.find?_cons_of_neg _ (by simp [matchesCat, catGood]; omega)]
        rw [List.find?_cons_of_neg _ (by simp [matchesCat, catModerate]; omega)]
        rw [List.find?_cons_of_pos _ (by simp [matchesCat, catUSG]; omega)]
      have hfilter : AIRNOW_AQI_GUIDE.filter (fun c => decide (matchesCat c v)) = [catUSG] := by
        rw [AIRNOW_AQI_GUIDE]
        rw [List.filter_cons_of_neg (by simp [matchesCat, catGood]; omega)]
        rw [List.filter_cons_of_neg (by simp [matchesCat, catModerate]; omega)]
        rw [List.filter_cons_of_pos (by simp [matchesCat, catUSG]; omega)]
        rw [List.filter_cons_of_neg (by simp [matchesCat, catUnhealthy]; omega)]
        rw [List.filter_cons_of_neg (by simp [matchesCat, catVeryUnhealthy]; omega)]
        rw [List.filter_cons_of_neg (by simp [matchesCat, catHazardous]; omega)]
        rfl
      have hget : get_airnow_aqi_info v = catUSG := by
        unfold get_airnow_aqi_info
        rw [hfind]
      refine ⟨?_, ?_⟩
      · unfold countMatches
        rw [hfilter]
        rfl
      · rw [hget]
        simp only [matchesCat, catUSG]
        omega
    rcases le_or_lt v 200 with hv3 | hv3
    · have hfind : AIRNOW_AQI_GUIDE.find? (fun c => decide (matchesCat c v)) = some catUnhealthy := by
        rw [AIRNOW_AQI_GUIDE]
        rw [List.find?_cons_of_neg _ (by simp [matchesCat, catGood]; omega)]
        rw [List.find?_cons_of_neg _ (by simp [matchesCat, catModerate]; omega)]
        rw [List.find?_cons_of_neg _ (by simp [matchesCat, catUSG]; omega)]
        rw [List.find?_cons_of_pos _ (by simp [matchesCat, catUnhealthy]; omega)]
      have hfilter : AIRNOW_AQI_GUIDE.filter (fun c => decide (matchesCat c v)) = [catUnhealthy] := by
        rw [AIRNOW_AQI_GUIDE]
        rw [List.filter_cons_of_neg (by simp [matchesCat, catGood]; omega)]
        rw [List.filter_cons_of_neg (by simp [matchesCat, catModerate]; omega)]
        rw [List.filter_cons_of_neg (by simp [matchesCat, catUSG]; omega)]
        rw [List.filter_cons_of_pos (by simp [matchesCat, catUnhealthy]; omega)]
        rw [List.filter_cons_of_neg (by simp [matchesCat, catVeryUnhealthy]; omega)]
        rw [List.filter_cons_of_neg (by simp [matchesCat, catHazardous]; omega)]
        rfl
      have hget : get_airnow_aqi_info v = catUnhealthy := by
        unfold get_airnow_aqi_info
        rw [hfind]
      refine ⟨?_, ?_⟩
      · unfold countMatches
        rw [hfilter]
        rfl
      · rw [hget]
        simp only [matchesCat, catUnhealthy]
        omega
    rcases le_or_lt v 300 with hv4 | hv4
    · have hfind : AIRNOW_AQI_GUIDE.find? (fun c => decide (matchesCat c v)) = some catVeryUnhealthy := by
        rw [AIRNOW_AQI_GUIDE]
        rw [List.find?_cons_of_neg _ (by simp [matchesCat, catGood]; omega)]
        rw [List.find?_cons_of_neg _ (by simp [matchesCat, catModerate]; omega)]
        rw [List.find?_cons_of_neg _ (by simp [matchesCat, catUSG]; omega)]
        rw [List.find?_cons_of_neg _ (by simp [matchesCat, catUnhealthy]; omega)]
        rw [List.find?_cons_of_pos _ (by simp [matchesCat, catVeryUnhealthy]; omega)]
      have hfilter : AIRNOW_AQI_GUIDE.filter (fun c => decide (matchesCat c v)) = [catVeryUnhealthy] := by
        rw [AIRNOW_AQI_GUIDE]
        rw [List.filter_cons_of_neg (by simp [matchesCat, catGood]; omega)]
        rw [List.filter_cons_of_neg (by simp [matchesCat, catModerate]; omega)]
        rw [List.filter_cons_of_neg (by simp [matchesCat, catUSG]; omega)]
        rw [List.filter_cons_of_neg (by simp [matchesCat, catUnhealthy]; omega)]
        rw [List.filter_cons_of_pos (by simp [matchesCat, catVeryUnhealthy]; omega)]
        rw [List.filter_cons_of_neg (by simp [matchesCat, catHazardous]; omega)]
        rfl
      have hget : get_airnow_aqi_info v = catVeryUnhealthy := by
        unfold get_airnow_aqi_info
        rw [hfind]
      refine ⟨?_, ?_⟩
      · unfold countMatches
        rw [hfilter]
        rfl
      · rw [hget]
        simp only [matchesCat, catVeryUnhealthy]
        omega
    have hfind : AIRNOW_AQI_GUIDE.find? (fun c => decide (matchesCat c v)) = some catHazardous := by
      rw [AIRNOW_AQI_GUIDE]
      rw [List.find?_cons_of_neg _ (by simp [matchesCat, catGood]; omega)]
      rw [List.find?_cons_of_neg _ (by simp [matchesCat, catModerate]; omega)]
      rw [List.find?_cons_of_neg _ (by simp [matchesCat, catUSG]; omega)]
      rw [List.find?_cons_of_neg _ (by simp [matchesCat, catUnhealthy]; omega)]
      rw [List.find?_cons_of_neg _ (by simp [matchesCat, catVeryUnhealthy]; omega)]
      rw [List.find?_cons_of_pos _ (by simp [matchesCat, catHazardous]; omega)]
    have hfilter : AIRNOW_AQI_GUIDE.filter (fun c => decide (matchesCat c v)) = [catHazardous] := by
      rw [AIRNOW_AQI_GUIDE]
      rw [List.filter_cons_of_neg (by simp [matchesCat, catGood]; omega)]
      rw [List.filter_cons_of_neg (by simp [matchesCat, catModerate]; omega)]
      rw [List.filter_cons_of_neg (by simp [matchesCat, catUSG]; omega)]
      rw [List.filter_cons_of_neg (by simp [matchesCat, catUnhealthy]; omega)]
      rw [List.filter_cons_of_neg (by simp [matchesCat, catVeryUnhealthy]; omega)]
      rw [List.filter_cons_of_pos (by simp [matchesCat, catHazardous]; omega)]
      rfl
    have hget : get_airnow_aqi_info v = catHazardous := by
      unfold get_airnow_aqi_info
      rw [hfind]
    refine ⟨?_, ?_⟩
    · unfold countMatches
      rw [hfilter]
      rfl
    · rw [hget]
      simp only [matchesCat, catHazardous]
      omega
  · intro v hv
    have hfind : AIRNOW_AQI_GUIDE.find? (fun c => decide (matchesCat c v)) = none := by
      rw [AIRNOW_AQI_GUIDE]
      rw [List.find?_cons_of_neg _ (by simp [matchesCat, catGood]; omega)]
      rw [List.find?_cons_of_neg _ (by simp [matchesCat, catModerate]; omega)]
      rw [List.find?_cons_of_neg _ (by simp [matchesCat, catUSG]; omega)]
      rw [List.find?_cons_of_neg _ (by simp [matchesCat, catUnhealthy]; omega)]
      rw [List.find?_cons_of_neg _ (by simp [matchesCat, catVeryUnhealthy]; omega)]
      rw [List.find?_cons_of_neg _ (by simp [matchesCat, catHazardous]; omega)]
      rfl
    have hfilter : AIRNOW_AQI_GUIDE.filter (fun c => decide (matchesCat c v)) = [] := by
      rw [AIRNOW_AQI_GUIDE]
      rw [List.filter_cons_of_neg (by simp [matchesCat, catGood]; omega)]
      rw [List.filter_cons_of_neg (by simp [matchesCat, catModerate]; omega)]
      rw [List.filter_cons_of_neg (by simp [matchesCat, catUSG]; omega)]
      rw [List.filter_cons_of_neg (by simp [matchesCat, catUnhealthy]; omega)]
      rw [List.filter_cons_of_neg (by simp [matchesCat, catVeryUnhealthy]; omega)]
      rw [List.filter_cons_of_neg (by simp [matchesCat, catHazardous]; omega)]
      rfl
    have hget : get_airnow_aqi_info v = catHazardous := by
      unfold get_airnow_aqi_info
      rw [hfind]
      rfl
    refine ⟨?_, ?_, ?_⟩
    · unfold countMatches
      rw [hfilter]
      rfl
    · rw [hget]
      rfl
    · rw [hget]
      rfl

/-- Witness for C8 at AQI 42 (one match) and 20000 (fallback). -/
theorem C8_category_partition_witness :
    (countMatches 42 = 1 ∧ matchesCat (get_airnow_aqi_info 42) 42) ∧
    (get_airnow_aqi_info 20000).level = "Hazardous" :=
  ⟨C8_category_partition.1 42 (by norm_num) (by norm_num),
    (C8_category_partition.2 20000 (by norm_num)).2.2⟩
